import Mathlib

/-!
# SmartFaceTrack — verification of the enrollment / attendance / notification model

A shallow embedding of the domain logic of the SmartFaceTrack attendance
monitoring system (React/TypeScript front end talking to a FastAPI backend).
Times are modelled as integer minutes, confidence scores as rationals, and
the client's optimistic state updates as pure functions on explicit state
records.  Functions embedded from the front-end source keep their source
names; the few backend operations that are not among the source files are
modelled from the specification and say so in their doc comments.
-/

namespace Capture

/-- Wall-clock time, in whole minutes. -/
abbrev Time := Int

/-- A user as carried in `Course.enrolled_students` (interface `User` of the
enrollment screens: id, name, email, role, department, optional student id). -/
structure SUser where
  id : Int
  name : String
  email : String
  role : String
  department : String
  student_id : Option String
deriving DecidableEq

/-- Interface `Course` of `services/api.ts` (the fields used by the capture
and enrollment screens). -/
structure Course where
  id : Int
  name : String
  code : String
  instructor_id : Int
  department : String
  description : Option String
  schedule : Option String
  room : Option String
  max_students : Int
  enrolled_students : List SUser
  is_active : Bool
  semester : String
  academic_year : String
deriving DecidableEq

/-- Attendance status union `'present' | 'absent' | 'late'`. -/
inductive Status where
  | present
  | absent
  | late
deriving DecidableEq

/-- Interface `AttendanceData` of `services/api.ts`: the payload the client
submits to `POST /attendance/`. -/
structure AttendanceData where
  user_id : Int
  course_id : String
  course_name : String
  course_code : String
  instructor_id : Int
  session_start : Time
  session_end : Time
  status : Status
  confidence : ℚ
  face_data : String
  location : String
  device_info : String
deriving DecidableEq

/-- `navigator.userAgent`: an opaque device string; its value is never
inspected by the code, so any constant is faithful. -/
def navigatorUserAgent : String := "browser"

/-- The `markAttendance` helper of `AttendanceCapture`.  Returns the payload
submitted to `attendanceAPI.markAttendance`, or `none` when the early
`if (!selectedCourse || !sessionStartTime) return;` guard fires.  `now` is the
wall-clock at the call (`new Date()`); the source sets
`sessionEnd.setMinutes(sessionEnd.getMinutes() + 1)` — one minute past the
capture instant — and hard-codes `status: 'present'`. -/
def markAttendance (instructorId : Int) (selectedCourse : Option Course)
    (sessionStartTime : Option Time) (userId : Int) (confidence : ℚ)
    (now : Time) : Option AttendanceData :=
  match selectedCourse, sessionStartTime with
  | some course, some start =>
      some { user_id := userId
             course_id := toString course.id
             course_name := course.name
             course_code := course.code
             instructor_id := instructorId
             session_start := start
             session_end := now + 1
             status := Status.present
             confidence := confidence
             face_data := ""
             location := "Classroom"
             device_info := navigatorUserAgent }
  | _, _ => none

/-- Union `'recognized' | 'unknown' | 'processing'` of `DetectedFace.status`. -/
inductive FaceStatus where
  | recognized
  | unknown
  | processing
deriving DecidableEq

/-- Interface `DetectedFace` of `AttendanceCapture`. -/
structure DetectedFace where
  id : String
  name : String
  confidence : ℚ
  timestamp : Time
  status : FaceStatus
deriving DecidableEq

/-- The `sessionStats` state of `AttendanceCapture`. -/
structure SessionStats where
  totalDetected : Int
  recognized : Int
  unknown : Int
  presentStudents : Int
deriving DecidableEq

/-- The per-session client state mutated by `captureAndProcess`. -/
structure CaptureState where
  detectedFaces : List DetectedFace
  sessionStats : SessionStats
deriving DecidableEq

/-- The verifier's response `response.data` from `POST /face/verify`:
`{ match: bool, user?, confidence? }`.  The source field `match` is a Lean
keyword, hence `matched` here. -/
structure VerifyResponse where
  matched : Bool
  user : Option SUser
  confidence : Option ℚ
deriving DecidableEq

/-- `selectedCourse?.enrolled_students.some(student => student.id === detectedUser.id)`:
with a null course the optional chain yields `undefined`, which is falsy. -/
def isEnrolled (selectedCourse : Option Course) (uid : Int) : Bool :=
  match selectedCourse with
  | some c => c.enrolled_students.any (fun student => student.id == uid)
  | none => false

/-- The decision core of `captureAndProcess` (the `canvas.toBlob` callback after
`faceRecognitionAPI.verifyFace` returns `resp`).  Returns the updated client
state together with the payload passed to `markAttendance`, `none` when
`markAttendance` is never invoked.  `response.data.confidence || 0` is
`confidence.getD 0` (`0 || 0` and `undefined || 0` both yield `0`). -/
def captureAndProcess (instructorId : Int) (selectedCourse : Option Course)
    (sessionStartTime : Option Time) (resp : VerifyResponse) (now : Time)
    (st : CaptureState) : CaptureState × Option AttendanceData :=
  if resp.matched ∧ resp.user.isSome then
    match resp.user with
    | some detectedUser =>
        if isEnrolled selectedCourse detectedUser.id then
          let submitted := markAttendance instructorId selectedCourse
            sessionStartTime detectedUser.id (resp.confidence.getD 0) now
          let newFace : DetectedFace :=
            { id := toString detectedUser.id
              name := detectedUser.name
              confidence := resp.confidence.getD 0
              timestamp := now
              status := FaceStatus.recognized }
          (⟨st.detectedFaces ++ [newFace],
            { st.sessionStats with
                totalDetected := st.sessionStats.totalDetected + 1
                recognized := st.sessionStats.recognized + 1
                presentStudents := st.sessionStats.presentStudents + 1 }⟩,
           submitted)
        else
          let newFace : DetectedFace :=
            { id := "unknown"
              name := "Not enrolled in this course"
              confidence := resp.confidence.getD 0
              timestamp := now
              status := FaceStatus.unknown }
          (⟨st.detectedFaces ++ [newFace],
            { st.sessionStats with
                totalDetected := st.sessionStats.totalDetected + 1
                unknown := st.sessionStats.unknown + 1 }⟩,
           none)
    | none =>
        -- unreachable given `resp.user.isSome`, kept for structural faithfulness
        (st, none)
  else
    let newFace : DetectedFace :=
      { id := "unknown"
        name := "Unknown Person"
        confidence := 0
        timestamp := now
        status := FaceStatus.unknown }
    (⟨st.detectedFaces ++ [newFace],
      { st.sessionStats with
          totalDetected := st.sessionStats.totalDetected + 1
          unknown := st.sessionStats.unknown + 1 }⟩,
     none)

/-- The client-side dedup key of a submitted record:
(student, course, session window). -/
def dedupKey (r : AttendanceData) : Int × String × Time × Time :=
  (r.user_id, r.course_id, r.session_start, r.session_end)

end Capture

namespace Notif

open Capture (Time)

/-- Interface `Notification` of `NotificationContext`. -/
structure Notification where
  id : Int
  title : String
  message : String
  notification_type : String
  priority : String
  is_read : Bool
  created_at : Time
  read_at : Option Time
  related_entity_type : Option String
  related_entity_id : Option Int
deriving DecidableEq

/-- The state held by `NotificationProvider`: the `notifications`,
`unreadCount` and `totalCount` React states.  Counts are JavaScript numbers,
modelled as integers so that the `Math.max(0, …)` clamps are meaningful. -/
structure NotificationState where
  notifications : List Notification
  unreadCount : Int
  totalCount : Int
deriving DecidableEq

/-- `markAsRead` of `NotificationProvider`, success path (the `catch` branch
leaves every state untouched).  Maps the matching notification to
`{ ...notif, is_read: true, read_at: new Date().toISOString() }` and sets
`unreadCount` to `Math.max(0, prev - 1)` unconditionally. -/
def markAsRead (notificationId : Int) (now : Time)
    (s : NotificationState) : NotificationState :=
  { s with
    notifications := s.notifications.map (fun notif =>
      if notif.id == notificationId then
        { notif with is_read := true, read_at := some now }
      else notif)
    unreadCount := max 0 (s.unreadCount - 1) }

/-- `markAllAsRead` of `NotificationProvider`, success path. -/
def markAllAsRead (now : Time) (s : NotificationState) : NotificationState :=
  { s with
    notifications := s.notifications.map (fun notif =>
      { notif with is_read := true, read_at := some now })
    unreadCount := 0 }

/-- `deleteNotification` of `NotificationProvider`, success path: looks the
item up in the current list, decrements the clamped unread counter only when
it was found and unread, filters it out, and decrements `totalCount`. -/
def deleteNotification (notificationId : Int)
    (s : NotificationState) : NotificationState :=
  let deletedNotification := s.notifications.find? (fun n => n.id == notificationId)
  { notifications := s.notifications.filter (fun n => n.id != notificationId)
    unreadCount :=
      match deletedNotification with
      | some n => if !n.is_read then max 0 (s.unreadCount - 1) else s.unreadCount
      | none => s.unreadCount
    totalCount := s.totalCount - 1 }

/-- `deleteAllNotifications` of `NotificationProvider`, success path. -/
def deleteAllNotifications (_s : NotificationState) : NotificationState :=
  { notifications := [], unreadCount := 0, totalCount := 0 }

/-- The four client notification operations. -/
inductive NotifOp where
  | markAsRead (notificationId : Int) (now : Time)
  | markAllAsRead (now : Time)
  | deleteNotification (notificationId : Int)
  | deleteAllNotifications
deriving DecidableEq

/-- Dispatch one notification operation. -/
def applyNotifOp : NotifOp → NotificationState → NotificationState
  | NotifOp.markAsRead i now, s => markAsRead i now s
  | NotifOp.markAllAsRead now, s => markAllAsRead now s
  | NotifOp.deleteNotification i, s => deleteNotification i s
  | NotifOp.deleteAllNotifications, s => deleteAllNotifications s

/-- Number of unread notifications in a list (the quantity the cached
`unreadCount` is meant to mirror). -/
def countUnread (l : List Notification) : Int :=
  (l.countP (fun n => !n.is_read) : Int)

end Notif

namespace Ledger

/-- Error taxonomy of the spec's Enrollment Ledger (section 7). -/
inductive EnrollError where
  | CapacityExceeded
  | AlreadyEnrolled
  | CourseInactive
  | NotEnrolled
deriving DecidableEq

/-- The server-side view of one course's enrollment: capacity, active flag,
and the ids of the students with an active Enrollment. -/
structure LedgerCourse where
  max_students : Int
  is_active : Bool
  enrolled : List Int
deriving DecidableEq

/-- Modelled from the spec: the backend Enrollment Ledger behind
`POST /courses/{id}/enroll/{sid}` and `POST /courses/{id}/self-enroll` is not
among the source files (only the API client and screens that call it are).
Section 4.1: `enroll` fails with `CapacityExceeded` if the active enrollment
count is ≥ `course.max_students`, with `AlreadyEnrolled` if the pair already
exists and is active, with `CourseInactive` if the course is inactive, and
otherwise appends the Enrollment. -/
def enroll (sid : Int) (c : LedgerCourse) : Except EnrollError LedgerCourse :=
  if c.max_students ≤ (c.enrolled.length : Int) then
    Except.error EnrollError.CapacityExceeded
  else if sid ∈ c.enrolled then
    Except.error EnrollError.AlreadyEnrolled
  else if !c.is_active then
    Except.error EnrollError.CourseInactive
  else
    Except.ok { c with enrolled := c.enrolled ++ [sid] }

/-- Modelled from the spec: `unenroll` (section 4.1) fails with `NotEnrolled`
when no active enrollment exists and otherwise deactivates the enrollment,
removing it from the active roster. -/
def unenroll (sid : Int) (c : LedgerCourse) : Except EnrollError LedgerCourse :=
  if sid ∈ c.enrolled then
    Except.ok { c with enrolled := c.enrolled.filter (fun x => x != sid) }
  else
    Except.error EnrollError.NotEnrolled

/-- One ledger action against a course. -/
inductive LedgerOp where
  | enroll (sid : Int)
  | unenroll (sid : Int)
deriving DecidableEq

/-- Apply one ledger action; a failing action leaves the course unchanged. -/
def applyLedgerOp (op : LedgerOp) (c : LedgerCourse) : LedgerCourse :=
  match op with
  | LedgerOp.enroll sid => (enroll sid c).toOption.getD c
  | LedgerOp.unenroll sid => (unenroll sid c).toOption.getD c

/-- Apply a sequence of ledger actions in order. -/
def applyLedgerOps (ops : List LedgerOp) (c : LedgerCourse) : LedgerCourse :=
  ops.foldl (fun st op => applyLedgerOp op st) c

/-- Modelled from the spec: the backend computation of
`DashboardCourse.can_enroll` for a student not enrolled in an active course is
not among the source files; per section 4.1 enrollment is possible exactly
when it would not fail with `CapacityExceeded`, i.e. when the active
enrollment count is below `max_students`. -/
def can_enroll_model (enrolled_count max_students : Int) : Bool :=
  decide (enrolled_count < max_students)

end Ledger

namespace Dash

open Capture (Course Time)

/-- Interface `DashboardCourse` of `StudentDashboard` (the per-course row of
`GET /courses/dashboard/student`). -/
structure DashboardCourse where
  id : Int
  name : String
  code : String
  description : Option String
  instructor_name : String
  instructor_id : Int
  is_active : Bool
  max_students : Int
  enrolled_count : Int
  available_spots : Int
  is_enrolled : Bool
  can_enroll : Bool
deriving DecidableEq

/-- The `disabled` prop of the "Enroll Student" button of the admin
`StudentEnrollment` screen:
`selectedCourse.enrolled_students.length >= selectedCourse.max_students`. -/
def enrollButtonDisabled (selectedCourse : Course) : Bool :=
  decide (selectedCourse.max_students ≤ (selectedCourse.enrolled_students.length : Int))

/-- The label of the self-enroll button of `StudentDashboard`:
`{course.can_enroll ? 'Enroll' : 'Full'}`. -/
def enrollButtonLabel (course : DashboardCourse) : String :=
  if course.can_enroll then "Enroll" else "Full"

/-- The `disabled` prop of the self-enroll button of `StudentDashboard`:
`disabled={!course.can_enroll}`. -/
def enrollActionDisabled (course : DashboardCourse) : Bool :=
  !course.can_enroll

/-- Interface `AttendanceStats` of `StudentDashboard` (the payload of
`GET /attendance/stats/{userId}`). -/
structure AttendanceStats where
  total_sessions : Int
  present_count : Int
  absent_count : Int
  late_count : Int
  attendance_rate : ℚ
deriving DecidableEq

/-- Modelled from the spec: the backend statistics endpoint
`GET /attendance/stats/{userId}` is not among the source files.  Section 4.4:
`attendanceRate(student_id) = present_count / total_sessions_for_enrolled_courses`,
defined as 0 when `total_sessions` is 0 to avoid division by zero. -/
def attendanceRate (present_count total_sessions : ℕ) : ℚ :=
  if total_sessions = 0 then 0
  else (present_count : ℚ) / (total_sessions : ℚ)

/-- The attendance-rate figure the `StudentDashboard` header card shows:
`{attendanceStats ? attendanceStats.attendance_rate.toFixed(1)% : '0%'}`,
modelled at the level of the numeric value rendered (`toFixed` is string
formatting of that value). -/
def displayedAttendanceRate (attendanceStats : Option AttendanceStats) : ℚ :=
  match attendanceStats with
  | some s => s.attendance_rate
  | none => 0

end Dash

namespace AppMain

/-- Role union `'student' | 'instructor' | 'admin'` of interface `User` in
`App.tsx`. -/
inductive Role where
  | student
  | instructor
  | admin
deriving DecidableEq

/-- Interface `User` of `App.tsx`. -/
structure AppUser where
  id : Int
  name : String
  email : String
  role : Role
  department : Option String
  program : Option String
  student_id : Option String
  face_data : Option String
  avatar : Option String
  is_active : Bool
  last_login : String
  created_at : String
  updated_at : String
deriving DecidableEq

/-- The slice of `localStorage` the session-restore effect touches: the value
stored under the key `smartfacetrack_user`, if any. -/
structure LocalStorage where
  user_entry : Option String
deriving DecidableEq

/-- What `App` renders at top level: `if (!user) return <AuthPage …/>;`
otherwise the main application shell. -/
inductive Page where
  | authPage
  | mainApp
deriving DecidableEq

/-- `renderRoot`: the top-level branch of `App`'s render. -/
def renderRoot (user : Option AppUser) : Page :=
  match user with
  | none => Page.authPage
  | some _ => Page.mainApp

/-- The session-restore `useEffect` of `App`.  `parse` stands for
`JSON.parse` followed by the cast to `User` — the one step that can throw,
hence `Except`.  `localStorage.getItem` yields string-or-null, and the source
guards with `if (storedUser)`: JavaScript truthiness, which is false both for
null (`none` here) and for the empty string, so a stored `""` is never parsed
and its entry is left in place.  For a truthy entry, the
`try { setUser(JSON.parse(storedUser)) } catch {
localStorage.removeItem('smartfacetrack_user') }` block catches every parse
failure, so the restored user and resulting store are a plain (total) value:
on failure the corrupt entry is removed and the user stays `none`. -/
def restoreSession (parse : String → Except String AppUser)
    (store : LocalStorage) : Option AppUser × LocalStorage :=
  match store.user_entry with
  | none => (none, store)
  | some storedUser =>
      if storedUser = "" then (none, store)
      else
        match parse storedUser with
        | Except.ok u => (some u, store)
        | Except.error _ => (none, { user_entry := none })

end AppMain

/-! Concrete states used to instantiate the theorems below. -/

/-- A student enrolled in the demo course. -/
def aliceUser : Capture.SUser :=
  { id := 1, name := "Alice", email := "alice@uni.edu", role := "student"
    department := "CS", student_id := some "S001" }

/-- A student NOT enrolled in the demo course. -/
def bobUser : Capture.SUser :=
  { id := 2, name := "Bob", email := "bob@uni.edu", role := "student"
    department := "CS", student_id := some "S002" }

/-- A demo course whose roster contains only Alice. -/
def demoCourse : Capture.Course :=
  { id := 7, name := "Algorithms", code := "C101", instructor_id := 3
    department := "CS", description := none, schedule := none, room := none
    max_students := 30, enrolled_students := [aliceUser], is_active := true
    semester := "Fall", academic_year := "2025" }

/-- The capture screen's state at session start. -/
def demoCaptureState : Capture.CaptureState :=
  { detectedFaces := [], sessionStats := ⟨0, 0, 0, 0⟩ }

/-- A verifier response matching Bob with high confidence. -/
def demoRespBob : Capture.VerifyResponse :=
  { matched := true, user := some bobUser, confidence := some (92 / 100) }

/-- A dashboard row for a full course. -/
def demoDashboardCourse : Dash.DashboardCourse :=
  { id := 7, name := "Algorithms", code := "C101", description := none
    instructor_name := "Carol", instructor_id := 3, is_active := true
    max_students := 2, enrolled_count := 2, available_spots := 0
    is_enrolled := false, can_enroll := false }

/-- An unread notification with id 1. -/
def notifA : Notif.Notification :=
  { id := 1, title := "Enrolled", message := "You were enrolled in C101"
    notification_type := "enrollment", priority := "normal", is_read := false
    created_at := 0, read_at := none, related_entity_type := some "course"
    related_entity_id := some 7 }

/-- An unread notification with id 2. -/
def notifB : Notif.Notification :=
  { id := 2, title := "Attendance", message := "Attendance confirmed for C101"
    notification_type := "attendance", priority := "normal", is_read := false
    created_at := 5, read_at := none, related_entity_type := none
    related_entity_id := none }

/-- A read notification with id 3. -/
def notifC : Notif.Notification :=
  { id := 3, title := "Welcome", message := "Welcome to SmartFaceTrack"
    notification_type := "system", priority := "low", is_read := true
    created_at := 0, read_at := some 1, related_entity_type := none
    related_entity_id := none }

/-- A state whose cached unread count (0) is stale: the list still holds the
unread `notifA`. -/
def staleNotifState : Notif.NotificationState :=
  { notifications := [notifA], unreadCount := 0, totalCount := 1 }

/-- A consistent state: two unread notifications, cached count 2. -/
def twoUnreadState : Notif.NotificationState :=
  { notifications := [notifA, notifB], unreadCount := 2, totalCount := 2 }

/-- A consistent state: one unread and one read notification, cached count 1. -/
def mixedNotifState : Notif.NotificationState :=
  { notifications := [notifA, notifC], unreadCount := 1, totalCount := 2 }

/-- A ledger course with two free seats and an empty roster. -/
def demoLedgerCourse : Ledger.LedgerCourse :=
  { max_students := 2, is_active := true, enrolled := [] }

/-- A ledger course already at capacity. -/
def fullLedgerCourse : Ledger.LedgerCourse :=
  { max_students := 2, is_active := true, enrolled := [5, 6] }

/-- Three enrollment attempts against a two-seat course. -/
def demoLedgerOps : List Ledger.LedgerOp :=
  [Ledger.LedgerOp.enroll 1, Ledger.LedgerOp.enroll 2, Ledger.LedgerOp.enroll 3]

/-- A parse function that fails on every input, standing for `JSON.parse`
applied to a corrupt entry. -/
def failingParse : String → Except String AppMain.AppUser :=
  fun _ => Except.error "Unexpected token in JSON"

/-- A local storage holding a corrupt persisted-user entry. -/
def corruptStore : AppMain.LocalStorage :=
  { user_entry := some "corrupt legacy value" }

/-- A local storage holding an empty string under the persisted-user key — a
storable value that is not valid JSON and is falsy in JavaScript. -/
def emptyStringStore : AppMain.LocalStorage :=
  { user_entry := some "" }



/-! ## Helper lemmas -/

/-- A single ledger action preserves `enrolled_count ≤ max_students`. -/
theorem applyLedgerOp_le (op : Ledger.LedgerOp) (c : Ledger.LedgerCourse)
    (h : (c.enrolled.length : Int) ≤ c.max_students) :
    ((Ledger.applyLedgerOp op c).enrolled.length : Int)
      ≤ (Ledger.applyLedgerOp op c).max_students := by
  cases op with
  | enroll sid =>
      simp only [Ledger.applyLedgerOp, Ledger.enroll]
      split_ifs with h1 h2 h3
      · simpa using h
      · simpa using h
      · simpa using h
      · simp only [Except.toOption, Option.getD, List.length_append,
          List.length_cons, List.length_nil]
        push_cast
        omega
  | unenroll sid =>
      simp only [Ledger.applyLedgerOp, Ledger.unenroll]
      split_ifs with h1
      · simp only [Except.toOption, Option.getD]
        calc ((c.enrolled.filter (fun x => x != sid)).length : Int)
            ≤ (c.enrolled.length : Int) := by
              exact_mod_cast List.length_filter_le _ _
          _ ≤ c.max_students := h
      · simpa using h

/-- A sequence of ledger actions preserves `enrolled_count ≤ max_students`. -/
theorem applyLedgerOps_le (ops : List Ledger.LedgerOp) (c : Ledger.LedgerCourse)
    (h : (c.enrolled.length : Int) ≤ c.max_students) :
    ((Ledger.applyLedgerOps ops c).enrolled.length : Int)
      ≤ (Ledger.applyLedgerOps ops c).max_students := by
  induction ops generalizing c with
  | nil => simpa [Ledger.applyLedgerOps] using h
  | cons op ops ih =>
      have hstep := applyLedgerOp_le op c h
      simpa [Ledger.applyLedgerOps] using ih (Ledger.applyLedgerOp op c) hstep

/-! ## Claim theorems -/

/-- C1: for every capture processed during an attendance session, if the
verified user is not in the selected course's `enrolled_students`, no
attendance record is created — `markAttendance` is never invoked and the
capture is reported as a not-enrolled/unknown outcome — regardless of the
confidence value returned by the verifier. -/
theorem captureAndProcess_not_enrolled_creates_no_record
    (instructorId : Int) (c : Capture.Course)
    (sessionStartTime : Option Capture.Time) (resp : Capture.VerifyResponse)
    (u : Capture.SUser) (now : Capture.Time) (st : Capture.CaptureState)
    (hmatch : resp.matched = true) (huser : resp.user = some u)
    (hnot : ∀ s ∈ c.enrolled_students, s.id ≠ u.id) :
    (Capture.captureAndProcess instructorId (some c) sessionStartTime resp now st).2
      = none ∧
    ∃ f : Capture.DetectedFace,
      (Capture.captureAndProcess instructorId (some c) sessionStartTime resp now
        st).1.detectedFaces = st.detectedFaces ++ [f] ∧
      f.status = Capture.FaceStatus.unknown ∧
      f.name = "Not enrolled in this course" := by
  have henr : Capture.isEnrolled (some c) u.id = false := by
    simp only [Capture.isEnrolled, List.any_eq_false]
    intro s hs
    simpa using hnot s hs
  simp only [Capture.captureAndProcess, hmatch, huser, henr, Option.isSome_some,
    and_true, if_true, Bool.false_eq_true, if_false, true_and]
  exact ⟨_, rfl, rfl, rfl⟩

/-- C1 witness: Bob is matched with confidence 0.92 but is not on the demo
course's roster, so no attendance payload is submitted. -/
theorem captureAndProcess_not_enrolled_witness :
    (Capture.captureAndProcess 3 (some demoCourse) (some 600) demoRespBob 603
      demoCaptureState).2 = none :=
  (captureAndProcess_not_enrolled_creates_no_record 3 demoCourse (some 600)
    demoRespBob bobUser 603 demoCaptureState rfl rfl (by decide)).1

/-- C2: the enroll operation is refused (CapacityExceeded) whenever the number
of enrolled students is ≥ `course.max_students`, so after any sequence of
enroll/unenroll actions `enrolled_count ≤ max_students`; in the client the
admin enrollment button is disabled exactly when the roster length reaches
`max_students`, the student self-enroll action is rendered `Full` exactly when
`can_enroll` is false, and the modelled `can_enroll` is false exactly when
capacity is reached. -/
theorem enroll_capacity_invariant (ops : List Ledger.LedgerOp)
    (c cFull : Ledger.LedgerCourse) (sid : Int) (cc : Capture.Course)
    (dc : Dash.DashboardCourse) (ec mx : Int)
    (hinit : (c.enrolled.length : Int) ≤ c.max_students)
    (hfull : cFull.max_students ≤ (cFull.enrolled.length : Int)) :
    ((Ledger.applyLedgerOps ops c).enrolled.length : Int)
      ≤ (Ledger.applyLedgerOps ops c).max_students ∧
    Ledger.enroll sid cFull = Except.error Ledger.EnrollError.CapacityExceeded ∧
    (Dash.enrollButtonDisabled cc = true
      ↔ cc.max_students ≤ (cc.enrolled_students.length : Int)) ∧
    (Dash.enrollButtonLabel dc = "Full" ↔ dc.can_enroll = false) ∧
    (Ledger.can_enroll_model ec mx = false ↔ mx ≤ ec) := by
  refine ⟨applyLedgerOps_le ops c hinit, ?_, ?_, ?_, ?_⟩
  · simp [Ledger.enroll, hfull]
  · simp [Dash.enrollButtonDisabled]
  · cases hce : dc.can_enroll <;> simp [Dash.enrollButtonLabel, hce]
  · simp [Ledger.can_enroll_model, not_lt]

/-- C2 witness: three enrollment attempts against a fresh two-seat course end
with at most two active enrollments, and a course already at capacity refuses
a further enroll with `CapacityExceeded`. -/
theorem enroll_capacity_invariant_witness :
    ((Ledger.applyLedgerOps demoLedgerOps demoLedgerCourse).enrolled.length : Int)
      ≤ (Ledger.applyLedgerOps demoLedgerOps demoLedgerCourse).max_students ∧
    Ledger.enroll 7 fullLedgerCourse
      = Except.error Ledger.EnrollError.CapacityExceeded :=
  ⟨(enroll_capacity_invariant demoLedgerOps demoLedgerCourse fullLedgerCourse 7
      demoCourse demoDashboardCourse 2 2 (by decide) (by decide)).1,
   (enroll_capacity_invariant demoLedgerOps demoLedgerCourse fullLedgerCourse 7
      demoCourse demoDashboardCourse 2 2 (by decide) (by decide)).2.1⟩

/-- C3 counterexample: take the session window [600, 630) (10:00–10:30), grace
offset 5 minutes and acceptance threshold 0.8.  A capture at 612 (10:12, past
the grace offset, before session end) with confidence 0.92 should yield status
`late` per the claim, yet the record the code submits carries status
`present`. -/
theorem markAttendance_ignores_time_counterexample :
    (Capture.markAttendance 3 (some demoCourse) (some 600) 1 (92 / 100)
        612).map Capture.AttendanceData.status = some Capture.Status.present ∧
    (600 : Int) + 5 < 612 ∧ (612 : Int) < 630 ∧
    Capture.Status.present ≠ Capture.Status.late := by
  refine ⟨rfl, by decide, by decide, by decide⟩

/-- C3 (amended): every record submitted by `markAttendance` carries status
`present` and the supplied confidence unchanged, regardless of the confidence
value and of when the capture occurs; its session window starts at the session
start and ends one minute after the capture instant.  No `late` (and no
threshold comparison) is ever produced by this path. -/
theorem markAttendance_always_present (instructorId : Int) (c : Capture.Course)
    (start : Capture.Time) (userId : Int) (confidence : ℚ)
    (now : Capture.Time) :
    ∃ r : Capture.AttendanceData,
      Capture.markAttendance instructorId (some c) (some start) userId
        confidence now = some r ∧
      r.status = Capture.Status.present ∧
      r.confidence = confidence ∧
      r.session_start = start ∧
      r.session_end = now + 1 := by
  exact ⟨_, rfl, rfl, rfl, rfl, rfl⟩

/-- C4 counterexample: two captures of the same student (id 1) in the same
instructor-declared session (start 600) at different instants 603 and 620
submit different (student, course, session_window) keys — the windows end at
604 and 621 — so the second capture does not collapse into the first on that
key. -/
theorem markAttendance_dedup_key_counterexample :
    (Capture.markAttendance 3 (some demoCourse) (some 600) 1 (92 / 100)
        603).map Capture.dedupKey ≠
    (Capture.markAttendance 3 (some demoCourse) (some 600) 1 (92 / 100)
        620).map Capture.dedupKey := by
  decide

/-- C4 (amended): two captures of the same student in the same session agree
on student id, course id and session_start, but each submitted `session_end`
is its own capture instant plus one minute, so captures at distinct instants
submit distinct (student_id, course_id, session_window) keys — the client
provides no common per-session dedup key. -/
theorem markAttendance_window_tracks_capture_time (instructorId : Int)
    (c : Capture.Course) (start : Capture.Time) (userId : Int)
    (conf1 conf2 : ℚ) (t1 t2 : Capture.Time) (hne : t1 ≠ t2) :
    ∃ r1 r2 : Capture.AttendanceData,
      Capture.markAttendance instructorId (some c) (some start) userId conf1 t1
        = some r1 ∧
      Capture.markAttendance instructorId (some c) (some start) userId conf2 t2
        = some r2 ∧
      r1.user_id = r2.user_id ∧ r1.course_id = r2.course_id ∧
      r1.session_start = r2.session_start ∧
      r1.session_end = t1 + 1 ∧ r2.session_end = t2 + 1 ∧
      Capture.dedupKey r1 ≠ Capture.dedupKey r2 := by
  refine ⟨_, _, rfl, rfl, rfl, rfl, rfl, rfl, rfl, ?_⟩
  have hends : (t1 : Int) + 1 ≠ t2 + 1 := by simpa using hne
  simp [Capture.dedupKey, hends]

/-- C4 witness: the amended statement at captures 603 and 620 of student 1 in
the session starting at 600. -/
theorem markAttendance_window_tracks_capture_time_witness :
    ∃ r1 r2 : Capture.AttendanceData,
      Capture.markAttendance 3 (some demoCourse) (some 600) 1 (92 / 100) 603
        = some r1 ∧
      Capture.markAttendance 3 (some demoCourse) (some 600) 1 (85 / 100) 620
        = some r2 ∧
      r1.user_id = r2.user_id ∧ r1.course_id = r2.course_id ∧
      r1.session_start = r2.session_start ∧
      r1.session_end = 603 + 1 ∧ r2.session_end = 620 + 1 ∧
      Capture.dedupKey r1 ≠ Capture.dedupKey r2 :=
  markAttendance_window_tracks_capture_time 3 demoCourse 600 1 (92 / 100)
    (85 / 100) 603 620 (by decide)

/-- C5 counterexample: in a state whose cached unread count is 0 while the
list still holds the unread `notifA`, deleting `notifA` leaves the cached
count unchanged (the `Math.max(0, prev - 1)` clamp), so the count is NOT
decremented although the deleted notification was unread. -/
theorem deleteNotification_iff_counterexample :
    staleNotifState.notifications.find? (fun n => n.id == 1) = some notifA ∧
    notifA.is_read = false ∧
    (Notif.deleteNotification 1 staleNotifState).unreadCount
      = staleNotifState.unreadCount ∧
    (Notif.deleteNotification 1 staleNotifState).unreadCount
      ≠ staleNotifState.unreadCount - 1 := by
  refine ⟨by decide, by decide, by decide, by decide⟩

/-- C5 (amended): deleting a notification removes it from the list regardless
of its read state; the cached unread count is decremented iff the deleted
notification was unread AND the cached count was positive — in particular,
whenever the cached count is consistent with the list (it equals the number of
unread notifications), the decrement happens exactly when the deleted
notification was unread, and deleting a read notification never changes the
count. -/
theorem deleteNotification_unread_decrement (i : Int)
    (s : Notif.NotificationState) (n m : Notif.Notification)
    (hfind : s.notifications.find? (fun x => x.id == i) = some n)
    (hcons : s.unreadCount = Notif.countUnread s.notifications)
    (hm : m ∈ (Notif.deleteNotification i s).notifications) :
    m.id ≠ i ∧
    ((Notif.deleteNotification i s).unreadCount = s.unreadCount - 1
      ↔ n.is_read = false) := by
  constructor
  · simp only [Notif.deleteNotification, List.mem_filter] at hm
    simpa using hm.2
  · have hmem : n ∈ s.notifications := List.mem_of_find?_eq_some hfind
    cases hr : n.is_read with
    | true =>
        simp only [Notif.deleteNotification, hfind, hr, Bool.not_true,
          Bool.false_eq_true, if_false]
        constructor
        · intro habs
          omega
        · intro habs
          exact absurd habs (by simp)
    | false =>
        have hpos : 0 < s.notifications.countP (fun x => !x.is_read) :=
          List.countP_pos_iff.mpr ⟨n, hmem, by simp [hr]⟩
        have hone : (1 : Int) ≤ s.unreadCount := by
          rw [hcons]
          unfold Notif.countUnread
          exact_mod_cast hpos
        simp only [Notif.deleteNotification, hfind, hr, Bool.not_false, if_true,
          iff_true]
        exact max_eq_right (by omega)

/-- C5 witness: in the consistent mixed state (one unread `notifA`, one read
`notifC`, cached count 1), deleting notification 1 removes it — the surviving
`notifC` has a different id — and the count drops to 0 exactly because the
deleted notification was unread. -/
theorem deleteNotification_unread_decrement_witness :
    notifC.id ≠ 1 ∧
    ((Notif.deleteNotification 1 mixedNotifState).unreadCount
        = mixedNotifState.unreadCount - 1
      ↔ notifA.is_read = false) :=
  deleteNotification_unread_decrement 1 mixedNotifState notifA notifC
    (by decide) (by decide) (by decide)

/-- C6 counterexample: with two unread notifications and cached count 2,
calling `markAsRead` on notification 1 and then again on the already-read
notification 1 (at a later time) is not a no-op: the count falls from 1 to 0
(though notification 2 is still unread) and `read_at` is overwritten from 10
to 20 — the state after the second call differs from the state after the
first. -/
theorem markAsRead_not_idempotent_counterexample :
    (Notif.markAsRead 1 10 twoUnreadState).unreadCount = 1 ∧
    (Notif.markAsRead 1 20 (Notif.markAsRead 1 10 twoUnreadState)).unreadCount
      = 0 ∧
    ((Notif.markAsRead 1 10 twoUnreadState).notifications.map
        Notif.Notification.read_at) = [some 10, none] ∧
    ((Notif.markAsRead 1 20
        (Notif.markAsRead 1 10 twoUnreadState)).notifications.map
        Notif.Notification.read_at) = [some 20, none] := by
  decide

/-- C6 (amended): calling `markAsRead` again on an already-marked notification
is not an error and leaves `is_read` at true (the flag is idempotent), but it
is not a no-op: `read_at` is overwritten with the second call's time and the
cached unread count is decremented once more whenever it is positive (clamped
at zero). -/
theorem markAsRead_second_call_effect (i : Int) (t1 t2 : Capture.Time)
    (s : Notif.NotificationState) (m : Notif.Notification)
    (hm : m ∈ (Notif.markAsRead i t2 (Notif.markAsRead i t1 s)).notifications)
    (hid : m.id = i) :
    m.is_read = true ∧ m.read_at = some t2 ∧
    (0 < (Notif.markAsRead i t1 s).unreadCount →
      (Notif.markAsRead i t2 (Notif.markAsRead i t1 s)).unreadCount
        = (Notif.markAsRead i t1 s).unreadCount - 1) := by
  simp only [Notif.markAsRead, List.mem_map] at hm
  obtain ⟨n', hn', heq⟩ := hm
  by_cases hcase : (n'.id == i) = true
  · rw [if_pos hcase] at heq
    refine ⟨?_, ?_, ?_⟩
    · rw [← heq]
    · rw [← heq]
    · intro hpos
      simp only [Notif.markAsRead] at hpos ⊢
      exact max_eq_right (by omega)
  · exfalso
    rw [if_neg hcase] at heq
    apply hcase
    rw [heq]
    simpa using hid

/-- C6 witness: the amended statement for the second `markAsRead 1` call on
`twoUnreadState`, at times 10 then 20. -/
theorem markAsRead_second_call_effect_witness :
    ({ notifA with is_read := true, read_at := some 20 }
      : Notif.Notification).is_read = true ∧
    ({ notifA with is_read := true, read_at := some 20 }
      : Notif.Notification).read_at = some 20 ∧
    (0 < (Notif.markAsRead 1 10 twoUnreadState).unreadCount →
      (Notif.markAsRead 1 20
          (Notif.markAsRead 1 10 twoUnreadState)).unreadCount
        = (Notif.markAsRead 1 10 twoUnreadState).unreadCount - 1) :=
  markAsRead_second_call_effect 1 10 20 twoUnreadState
    { notifA with is_read := true, read_at := some 20 } (by decide) (by decide)

/-- C7: the per-notification read state is one-way Unread → Read under every
client notification operation: any notification present and unread after an
operation is literally an untouched unread notification of the state before
it, so no operation ever turns `is_read` from true back to false. -/
theorem notif_read_state_one_way (op : Notif.NotifOp)
    (s : Notif.NotificationState) (m : Notif.Notification)
    (hm : m ∈ (Notif.applyNotifOp op s).notifications)
    (hunread : m.is_read = false) :
    m ∈ s.notifications := by
  cases op with
  | markAsRead i t =>
      simp only [Notif.applyNotifOp, Notif.markAsRead, List.mem_map] at hm
      obtain ⟨n', hn', heq⟩ := hm
      by_cases hcase : (n'.id == i) = true
      · rw [if_pos hcase] at heq
        rw [← heq] at hunread
        simp at hunread
      · rw [if_neg hcase] at heq
        exact heq ▸ hn'
  | markAllAsRead t =>
      simp only [Notif.applyNotifOp, Notif.markAllAsRead, List.mem_map] at hm
      obtain ⟨n', hn', heq⟩ := hm
      rw [← heq] at hunread
      simp at hunread
  | deleteNotification i =>
      simp only [Notif.applyNotifOp, Notif.deleteNotification] at hm
      exact List.mem_of_mem_filter hm
  | deleteAllNotifications =>
      simp [Notif.applyNotifOp, Notif.deleteAllNotifications] at hm

/-- C7 witness: after `markAsRead 2`, the still-unread notification 1 of
`twoUnreadState` is exactly the pre-state `notifA`. -/
theorem notif_read_state_one_way_witness :
    notifA ∈ twoUnreadState.notifications :=
  notif_read_state_one_way (Notif.NotifOp.markAsRead 2 5) twoUnreadState notifA
    (by decide) (by decide)

/-- C8: `attendanceRate` equals `present_count / total_sessions`, is defined
as 0 (not an error, no division by zero) whenever the total session count is
0, and the dashboard's rate card shows 0% when no statistics exist. -/
theorem attendanceRate_zero_safe (present total : ℕ) (hpos : 0 < total) :
    Dash.attendanceRate present 0 = 0 ∧
    Dash.attendanceRate present total = (present : ℚ) / (total : ℚ) ∧
    Dash.displayedAttendanceRate none = 0 := by
  refine ⟨by simp [Dash.attendanceRate], ?_, rfl⟩
  unfold Dash.attendanceRate
  rw [if_neg (by omega)]

/-- C8 witness: a student with 2 present sessions out of 4 has rate 2/4, and a
student with zero sessions gets rate 0, not an error. -/
theorem attendanceRate_zero_safe_witness :
    Dash.attendanceRate 2 0 = 0 ∧
    Dash.attendanceRate 2 4 = (2 : ℚ) / (4 : ℚ) ∧
    Dash.displayedAttendanceRate none = 0 :=
  attendanceRate_zero_safe 2 4 (by decide)

/-- C9: the cached unread notification count never goes negative: every client
notification operation preserves `0 ≤ unreadCount`, because each decrement is
clamped at zero and the bulk operations set the count to zero. -/
theorem applyNotifOp_unreadCount_nonneg (op : Notif.NotifOp)
    (s : Notif.NotificationState) (h : 0 ≤ s.unreadCount) :
    0 ≤ (Notif.applyNotifOp op s).unreadCount := by
  cases op with
  | markAsRead i t =>
      simp only [Notif.applyNotifOp, Notif.markAsRead]
      exact le_max_left 0 _
  | markAllAsRead t =>
      simp [Notif.applyNotifOp, Notif.markAllAsRead]
  | deleteNotification i =>
      cases hfind : s.notifications.find? (fun n => n.id == i) with
      | none => simpa [Notif.applyNotifOp, Notif.deleteNotification, hfind]
          using h
      | some n =>
          simp only [Notif.applyNotifOp, Notif.deleteNotification, hfind]
          split
          · exact le_max_left 0 _
          · exact h
  | deleteAllNotifications =>
      simp [Notif.applyNotifOp, Notif.deleteAllNotifications]

/-- C9 witness: deleting the unread notification of the stale state (cached
count already 0) still leaves the count at 0, not −1. -/
theorem applyNotifOp_unreadCount_nonneg_witness :
    0 ≤ (Notif.applyNotifOp (Notif.NotifOp.deleteNotification 1)
      staleNotifState).unreadCount :=
  applyNotifOp_unreadCount_nonneg (Notif.NotifOp.deleteNotification 1)
    staleNotifState (by decide)

/-- C10 counterexample: the empty string is a storable value under the
persisted-user key that is not valid JSON, yet it is falsy in the source's
`if (storedUser)` guard: the restore effect never attempts the parse and the
entry is NOT removed — it stays `some ""` — contradicting "the corrupt entry
is removed" at this input (the user does stay unauthenticated). -/
theorem restoreSession_empty_entry_counterexample :
    emptyStringStore.user_entry = some "" ∧
    failingParse "" = Except.error "Unexpected token in JSON" ∧
    AppMain.restoreSession failingParse emptyStringStore
      = (none, emptyStringStore) ∧
    (AppMain.restoreSession failingParse emptyStringStore).2
      ≠ ({ user_entry := none } : AppMain.LocalStorage) := by
  refine ⟨rfl, rfl, by decide, by decide⟩

/-- C10 (amended): session restore is total — for every stored value whose
parse fails, `App` never throws, the user remains unauthenticated and the
auth page is rendered; for every truthy (non-empty) stored string the corrupt
entry is removed, while a stored empty string is falsy under the source's
`if (storedUser)` guard, is never parsed, and is left in place. -/
theorem restoreSession_parse_failure_safe
    (parse : String → Except String AppMain.AppUser)
    (store : AppMain.LocalStorage) (v e : String)
    (hv : store.user_entry = some v) (herr : parse v = Except.error e) :
    (v ≠ "" →
      AppMain.restoreSession parse store = (none, { user_entry := none })) ∧
    (v = "" → AppMain.restoreSession parse store = (none, store)) ∧
    AppMain.renderRoot (AppMain.restoreSession parse store).1
      = AppMain.Page.authPage := by
  by_cases hvem : v = ""
  · have hres : AppMain.restoreSession parse store = (none, store) := by
      simp [AppMain.restoreSession, hv, hvem]
    exact ⟨fun h => absurd hvem h, fun _ => hres, by rw [hres]; rfl⟩
  · have hres : AppMain.restoreSession parse store
        = (none, { user_entry := none }) := by
      simp [AppMain.restoreSession, hv, hvem, herr]
    exact ⟨fun _ => hres, fun h => absurd h hvem, by rw [hres]; rfl⟩

/-- C10 witness: restoring from a store holding the non-empty corrupt entry
with a parse function that rejects it removes the entry and shows the auth
page. -/
theorem restoreSession_parse_failure_safe_witness :
    ("corrupt legacy value" ≠ "" →
      AppMain.restoreSession failingParse corruptStore
        = (none, { user_entry := none })) ∧
    ("corrupt legacy value" = "" →
      AppMain.restoreSession failingParse corruptStore
        = (none, corruptStore)) ∧
    AppMain.renderRoot (AppMain.restoreSession failingParse corruptStore).1
      = AppMain.Page.authPage :=
  restoreSession_parse_failure_safe failingParse corruptStore
    "corrupt legacy value" "Unexpected token in JSON" rfl rfl
